import Mathlib

/-!
Verification of the typst-lsp VS Code extension client logic
(`addons/vscode/src/extension.ts`, latest revision).

The TypeScript source is shallowly embedded as pure Lean functions.
Effectful operations (spawning a validation subprocess, stat-ing a file,
sending LSP requests/notifications, opening a viewer) are made explicit:
the behaviour of the outside world is a parameter, and each command
returns the ordered list of externally visible actions it performs
together with the error it propagates (if any).
-/

namespace TypstLsp

/-- Result of `child_process.spawnSync(path)` when it returns normally:
`status` is the exit status (`null` when the process did not exit
normally, e.g. on a spawn error), `error` is the optional error message
(`result.error?.message`). -/
structure SpawnResult where
  status : Option Int
  error : Option String
  deriving DecidableEq, Repr

/-- Possible behaviours of `child_process.spawnSync(path)`: return a
`SpawnResult`, throw a JavaScript `Error` (carrying `e.message`), or
throw a non-`Error` value (rendered with `JSON.stringify`). -/
inductive SpawnBehavior where
  | returns (result : SpawnResult)
  | throwsError (message : String)
  | throwsOther (json : String)
  deriving DecidableEq, Repr

/-- The return type of `validateServer`:
`{ valid: true } | { valid: false; message: string }`. -/
inductive ValidationResult where
  | valid
  | invalid (message : String)
  deriving DecidableEq, Repr

/-- Embedding of `validateServer(path)` from `extension.ts`. The
behaviour of `child_process.spawnSync` is a parameter `spawn`; the
`try`/`catch` becomes a match on the three spawn behaviours. Note that
in the source `messages = [statusMessage, errorMessage]` always has
length 2, so the `messages.length !== 0` test is always true. -/
def validateServer (spawn : String → SpawnBehavior) (path : String) : ValidationResult :=
  match spawn path with
  | .returns result =>
    if result.status = some 0 then
      .valid
    else
      let statusMessage := match result.status with
        | some s => [s!"return status: {s}"]
        | none => []
      let errorMessage := match result.error with
        | some m => [s!"error: {m}"]
        | none => []
      let messages := [statusMessage, errorMessage]
      let messageSuffix :=
        if messages.length ≠ 0 then ":\n\t" ++ String.intercalate "\n\t" messages.flatten
        else ""
      .invalid (s!"Failed to launch \x27{path}\x27" ++ messageSuffix)
  | .throwsError message => .invalid s!"Failed to launch \x27{path}\x27: {message}"
  | .throwsOther json => .invalid s!"Failed to launch \x27{path}\x27: {json}"

/-- The value read by `conf.get<string | null>("serverPath")`: absent
(`undefined`), explicitly `null`, or a string. -/
inductive ConfigValue where
  | undef
  | null
  | str (s : String)
  deriving DecidableEq, Repr

/-- Host facts consulted by `getServer`: whether
`process.platform === "win32"`, and the extension install directory
`__dirname`. -/
structure Platform where
  isWindows : Bool
  dirname : String
  deriving DecidableEq, Repr

/-- Model of node's `path.resolve(__dirname, binaryName)` for an
absolute directory and a relative file name: join with the path
separator. -/
def pathResolveIn (dir name : String) : String := dir ++ "/" ++ name

/-- Embedding of the no-override tail of `getServer` (lines following
the `serverPath` check): try the bundled path, then the bare binary
name, else throw the aggregated error. The second component records
every path passed to `validateServer` (hence probed via `spawnSync`),
in call order. -/
def getServerFallback (plat : Platform) (spawn : String → SpawnBehavior) :
    Except String String × List String :=
  let windows := plat.isWindows
  let suffix := if windows then ".exe" else ""
  let binaryName := "typst-lsp" ++ suffix
  let bundledPath := pathResolveIn plat.dirname binaryName
  match validateServer spawn bundledPath with
  | .valid => (.ok bundledPath, [bundledPath])
  | .invalid bundledMessage =>
    match validateServer spawn binaryName with
    | .valid => (.ok binaryName, [bundledPath, binaryName])
    | .invalid binaryMessage =>
      (.error s!"Could not find a valid typst-lsp binary.\nBundled: {bundledMessage}\nIn PATH: {binaryMessage}",
       [bundledPath, binaryName])

/-- Embedding of `getServer(conf)` from `extension.ts`. A thrown
`Error` becomes `Except.error` with the error's message. The second
component records every path passed to `validateServer` (hence probed
via `spawnSync`), in call order, so that the absence of probing is
provable. The guard is the source's
`pathInConfig !== undefined && pathInConfig !== null && pathInConfig !== ""`. -/
def getServer (plat : Platform) (spawn : String → SpawnBehavior) (conf : ConfigValue) :
    Except String String × List String :=
  match conf with
  | .str pathInConfig =>
    if pathInConfig ≠ "" then
      match validateServer spawn pathInConfig with
      | .valid => (.ok pathInConfig, [pathInConfig])
      | .invalid message =>
        (.error s!"`typst-lsp.serverPath` ({pathInConfig}) does not point to a valid typst-lsp binary:\n{message}",
         [pathInConfig])
    else getServerFallback plat spawn
  | _ => getServerFallback plat spawn

/-! ## Command orchestrator -/

/-- The `ViewColumn` argument passed to the `vscode.open` command; the
source always passes `ViewColumn.Beside`. -/
inductive ViewColumn where
  | active
  | beside
  deriving DecidableEq, Repr

/-- An externally visible action performed by a command handler or the
configuration bridge, in the order the source awaits it:
`workspace.fs.stat`, `client.sendRequest("workspace/executeCommand", ...)`,
`client.sendNotification(method, ...)`, and
`commands.executeCommand("vscode.open", uri, column)`. -/
inductive Action where
  | statFile (uri : String)
  | sendExecuteCommand (command : String) (argument : String)
  | sendNotification (method : String)
  | openViewer (uri : String) (column : ViewColumn)
  deriving DecidableEq, Repr

/-- Host state visible to the command handlers: the URI (as a string)
of the active editor's document if one exists, whether the module
global `client` variable is set, whether `workspace.fs.stat` resolves
for a given URI, and the outcome of a `workspace/executeCommand`
request (`none` = the request resolves, `some e` = it rejects with
error `e`). -/
structure World where
  activeEditor : Option String
  clientDefined : Bool
  statSucceeds : String → Bool
  requestOutcome : String → String → Option String

/-- Embedding of `commandExportCurrentPdf()`: no-op when there is no
active editor; otherwise send the `typst-lsp.doPdfExport` execute
command request for the active document's URI (via `client?.`, so only
when `client` is defined). Returns the performed actions and the error
the returned promise rejects with, if any. -/
def commandExportCurrentPdf (w : World) : List Action × Option String :=
  match w.activeEditor with
  | none => ([], none)
  | some uri =>
    if w.clientDefined then
      ([Action.sendExecuteCommand "typst-lsp.doPdfExport" uri],
       w.requestOutcome "typst-lsp.doPdfExport" uri)
    else ([], none)

/-- Embedding of `commandClearCache()`: same shape as
`commandExportCurrentPdf` with the `typst-lsp.doClearCache` command. -/
def commandClearCache (w : World) : List Action × Option String :=
  match w.activeEditor with
  | none => ([], none)
  | some uri =>
    if w.clientDefined then
      ([Action.sendExecuteCommand "typst-lsp.doClearCache" uri],
       w.requestOutcome "typst-lsp.doClearCache" uri)
    else ([], none)

/-- JavaScript `string.lastIndexOf(c)` for a single-character needle,
on the string's character list: index of the last occurrence, `-1` when
absent. -/
def jsLastIndexOfChar (c : Char) : List Char → Int
  | [] => -1
  | x :: xs =>
    let r := jsLastIndexOfChar c xs
    if r = -1 then (if x = c then 0 else -1) else r + 1

/-- JavaScript `uri.toString().lastIndexOf(".")`. -/
def jsLastIndexOfDot (s : String) : Int := jsLastIndexOfChar '.' s.data

/-- JavaScript `s.slice(0, n)`: a negative `n` counts from the end of
the string (clamped at 0); a large `n` is clamped to the length. -/
def jsSliceTo (s : String) (n : Int) : String :=
  String.mk (s.data.take (if n < 0 then ((s.data.length : Int) + n).toNat else n.toNat))

/-- The derived artifact URI computed by `commandShowPdf`:
`uri.toString().slice(0, uri.toString().lastIndexOf(".")) + ".pdf"`.
`Uri.parse` is modelled as the identity on the URI string. This is a
pure function of the source document's URI string alone. -/
def pdfUriOf (uri : String) : String :=
  jsSliceTo uri (jsLastIndexOfDot uri) ++ ".pdf"

/-- Embedding of `commandShowPdf()`: no-op when there is no active
editor; otherwise derive the PDF URI from the document URI by string
manipulation, `try` a stat of it, on stat failure (`catch`) run
`commandExportCurrentPdf`, and in either case (`finally`) open the PDF
URI beside the source editor. An error thrown by the `catch` block
(a rejected export request) propagates after the `finally` block runs. -/
def commandShowPdf (w : World) : List Action × Option String :=
  match w.activeEditor with
  | none => ([], none)
  | some uri =>
    let pdf_uri := pdfUriOf uri
    if w.statSucceeds pdf_uri then
      ([Action.statFile pdf_uri, Action.openViewer pdf_uri ViewColumn.beside], none)
    else
      let exported := commandExportCurrentPdf w
      (Action.statFile pdf_uri :: exported.1 ++ [Action.openViewer pdf_uri ViewColumn.beside],
       exported.2)

/-! ## Configuration bridge and session lifecycle -/

/-- Embedding of the `workspace.onDidChangeConfiguration` handler
(earlier revisions of `extension.ts`):
`await client?.sendNotification(DidChangeConfigurationNotification.type, ...)`.
When the module global `client` is unset (no live client), the optional
chain short-circuits: nothing is sent and nothing throws. The method
name of `DidChangeConfigurationNotification.type` is
`workspace/didChangeConfiguration`. -/
def onConfigurationChanged (clientDefined : Bool) : List Action × Option String :=
  if clientDefined then
    ([Action.sendNotification "workspace/didChangeConfiguration"], none)
  else ([], none)

/-- Lifecycle states of the client session. -/
inductive SessionState where
  | stopped
  | starting
  | running
  | stopping
  deriving DecidableEq, Repr

/-- Modelled from the spec: `LanguageClient.stop()` is provided by the
`vscode-languageclient` library, whose code is not part of this
repository. Per the spec, `stop()` "requests graceful shutdown ... and
transitions to Stopped", and is idempotent: "stopping an
already-Stopped or nonexistent session is a no-op, not an error".
Returns the new state and the error thrown, if any (never one). -/
def clientStop : SessionState → SessionState × Option String
  | .stopped => (.stopped, none)
  | _ => (.stopped, none)

/-- Embedding of `deactivate()`: `return client?.stop()`. When `client`
is `undefined` the optional chain short-circuits and nothing happens;
otherwise the library's `stop` runs. Returns the resulting client
state and the error thrown, if any. -/
def deactivate (client : Option SessionState) : Option SessionState × Option String :=
  match client with
  | none => (none, none)
  | some s =>
    let stopped := clientStop s
    (some stopped.1, stopped.2)

/-! ## Server process environment -/

/-- JavaScript `Object.assign({}, base, overrides)` on string-keyed
objects, viewed as partial maps: keys of `overrides` win, all other
keys of `base` are kept. -/
def objectAssign (base overrides : String → Option String) : String → Option String :=
  fun k => match overrides k with
    | some v => some v
    | none => base k

/-- The override object `{ RUST_BACKTRACE: "1" }` from `startClient`. -/
def rustBacktraceOverride : String → Option String :=
  fun k => if k = "RUST_BACKTRACE" then some "1" else none

/-- The child environment built in `startClient`:
`Object.assign({}, process.env, { RUST_BACKTRACE: "1" })`, used for
both the `run` and `debug` server options. -/
def startClientEnv (processEnv : String → Option String) : String → Option String :=
  objectAssign processEnv rustBacktraceOverride

/-! ## Named locals of `getServer` -/

/-- The `binaryName` local of `getServer`: the bare executable name
with the platform's executable suffix. -/
def binaryNameOf (plat : Platform) : String :=
  "typst-lsp" ++ (if plat.isWindows then ".exe" else "")

/-- The `bundledPath` local of `getServer`: the bundled executable
inside the extension install directory. -/
def bundledPathOf (plat : Platform) : String :=
  pathResolveIn plat.dirname (binaryNameOf plat)

/-! ## Concrete fixtures used by the witness theorems -/

/-- Concrete spawn behaviour for the `getServer_override_exclusive`
witness: the configured override exits with status 1 while every other
candidate (bundled and PATH included) would exit 0. -/
def spawnOverrideBad : String → SpawnBehavior := fun p =>
  if p = "/srv/typst-lsp" then .returns ⟨some 1, none⟩ else .returns ⟨some 0, none⟩

/-- Concrete spawn behaviour for the `getServer_fallback_order`
witness: the bundled path fails to spawn, the bare name exits 0. -/
def spawnPathOnly : String → SpawnBehavior := fun p =>
  if p = "typst-lsp" then .returns ⟨some 0, none⟩
  else .returns ⟨none, some "spawn ENOENT"⟩

/-- Concrete spawn behaviour for the `validateServer_spec` witness:
spawning throws an `Error` with message `EACCES`. -/
def spawnThrows : String → SpawnBehavior := fun _ => .throwsError "EACCES"

/-- Concrete world for the `commandShowPdf_spec` witness: the derived
PDF does not exist and the export request rejects; the viewer is still
opened on the derived path after the single export request. -/
def wShowMissing : World where
  activeEditor := some "file:///doc/main.typ"
  clientDefined := true
  statSucceeds := fun _ => false
  requestOutcome := fun _ _ => some "export failed"

/-- Concrete world for the `commands_no_active_editor` witness: no
active editor, while the client is defined and every request would
reject. -/
def wNoEditor : World where
  activeEditor := none
  clientDefined := true
  statSucceeds := fun _ => true
  requestOutcome := fun _ _ => some "would reject"

/-- Concrete world for the `showPdf_artifact_path` witness. -/
def wShowTyp : World where
  activeEditor := some "file:///doc/ch1.typ"
  clientDefined := true
  statSucceeds := fun _ => true
  requestOutcome := fun _ _ => none

/-- Concrete parent environment for the `startClientEnv_spec`
witness. -/
def parentEnvSample : String → Option String := fun k =>
  if k = "PATH" then some "/usr/bin" else none

/-! ## Helper lemmas -/

theorem jsLastIndexOfChar_of_not_mem (c : Char) :
    ∀ l : List Char, c ∉ l → jsLastIndexOfChar c l = -1
  | [], _ => rfl
  | x :: xs, h => by
    have hx : ¬(x = c) := fun hxc => h (by simp [hxc])
    have hxs : c ∉ xs := fun hm => h (List.mem_cons_of_mem x hm)
    simp [jsLastIndexOfChar, jsLastIndexOfChar_of_not_mem c xs hxs, hx]

theorem jsLastIndexOfChar_append (c : Char) (s t : List Char) (h : c ∉ t) :
    jsLastIndexOfChar c (s ++ c :: t) = (s.length : Int) := by
  induction s with
  | nil => simp [jsLastIndexOfChar, jsLastIndexOfChar_of_not_mem c t h]
  | cons x xs ih =>
    have hne : ((xs.length : Int)) ≠ -1 := by omega
    simp only [List.cons_append, jsLastIndexOfChar, List.append_eq, ih, List.length_cons]
    rw [if_neg hne]
    push_cast
    ring

theorem pdfUriOf_replace_ext (base ext : String) (h : '.' ∉ ext.data) :
    pdfUriOf (base ++ "." ++ ext) = base ++ ".pdf" := by
  have hdata : (base ++ "." ++ ext).data = base.data ++ '.' :: ext.data := by
    simp [String.data_append]
  have hlast : jsLastIndexOfDot (base ++ "." ++ ext) = (base.data.length : Int) := by
    rw [jsLastIndexOfDot, hdata]
    exact jsLastIndexOfChar_append '.' base.data ext.data h
  have hnn : ¬((base.data.length : Int) < 0) := by omega
  have hslice : jsSliceTo (base ++ "." ++ ext) ((base.data.length : Int)) = base := by
    rw [jsSliceTo, if_neg hnn, Int.toNat_natCast, hdata, List.take_left]
  rw [pdfUriOf, hlast, hslice]

theorem append_ne_empty_left (s t : String) (hs : s ≠ "") : s ++ t ≠ "" := by
  intro hcontr
  apply hs
  have hdata := congrArg String.data hcontr
  rw [String.data_append] at hdata
  exact String.ext (List.append_eq_nil.mp hdata).1

theorem append_ne_empty_right (s t : String) (ht : t ≠ "") : s ++ t ≠ "" := by
  intro hcontr
  apply ht
  have hdata := congrArg String.data hcontr
  rw [String.data_append] at hdata
  exact String.ext (List.append_eq_nil.mp hdata).2

theorem binaryNameOf_ne_empty (plat : Platform) : binaryNameOf plat ≠ "" :=
  append_ne_empty_left _ _ (by decide)

theorem bundledPathOf_ne_empty (plat : Platform) : bundledPathOf plat ≠ "" :=
  append_ne_empty_right _ _ (binaryNameOf_ne_empty plat)

theorem getServer_eq_fallback (plat : Platform) (spawn : String → SpawnBehavior)
    (conf : ConfigValue) (hconf : conf = .undef ∨ conf = .null) :
    getServer plat spawn conf = getServerFallback plat spawn := by
  rcases hconf with h | h <;> subst h <;> rfl

theorem getServerFallback_trace (plat : Platform) (spawn : String → SpawnBehavior) :
    (getServerFallback plat spawn).2 = [bundledPathOf plat] ∨
    (getServerFallback plat spawn).2 = [bundledPathOf plat, binaryNameOf plat] := by
  cases hv : validateServer spawn
      (pathResolveIn plat.dirname ("typst-lsp" ++ (if plat.isWindows then ".exe" else ""))) with
  | valid =>
    left
    simp [getServerFallback, hv, bundledPathOf, binaryNameOf]
  | invalid m =>
    cases hv2 : validateServer spawn ("typst-lsp" ++ (if plat.isWindows then ".exe" else "")) with
    | valid =>
      right
      simp [getServerFallback, hv, hv2, bundledPathOf, binaryNameOf]
    | invalid m2 =>
      right
      simp [getServerFallback, hv, hv2, bundledPathOf, binaryNameOf]

/-! ## Claim theorems -/

/-- C1: with a non-empty `serverPath` override, `getServer` evaluates
the override exclusively. In both conclusions the probe trace is
`[p]`: the bundled and PATH candidates are never passed to
`validateServer` (hence never spawned), whatever behaviour `spawn`
assigns to them. A valid override is returned as-is; an invalid one
makes resolution fail immediately with a diagnostic naming the
override and carrying its validation message. -/
theorem getServer_override_exclusive (plat : Platform) (spawn : String → SpawnBehavior)
    (p : String) (hp : p ≠ "") :
    (validateServer spawn p = .valid → getServer plat spawn (.str p) = (.ok p, [p])) ∧
    (∀ m, validateServer spawn p = .invalid m →
      getServer plat spawn (.str p) =
        (.error s!"`typst-lsp.serverPath` ({p}) does not point to a valid typst-lsp binary:\n{m}",
         [p])) := by
  constructor
  · intro h
    simp [getServer, hp, h]
  · intro m h
    simp [getServer, hp, h]

theorem getServer_override_exclusive_witness :
    ("/srv/typst-lsp" : String) ≠ "" ∧
    validateServer spawnOverrideBad "/srv/typst-lsp" =
      .invalid "Failed to launch \x27/srv/typst-lsp\x27:\n\treturn status: 1" ∧
    getServer ⟨false, "/ext"⟩ spawnOverrideBad (.str "/srv/typst-lsp") =
      (.error "`typst-lsp.serverPath` (/srv/typst-lsp) does not point to a valid typst-lsp binary:\nFailed to launch \x27/srv/typst-lsp\x27:\n\treturn status: 1",
       ["/srv/typst-lsp"]) :=
  ⟨by decide, by decide,
   (getServer_override_exclusive ⟨false, "/ext"⟩ spawnOverrideBad "/srv/typst-lsp" (by decide)).2
     "Failed to launch \x27/srv/typst-lsp\x27:\n\treturn status: 1" (by decide)⟩

/-- C3: with no (or a `null`) override, the bundled path is validated
before the bare executable name — the probe trace is
`[bundledPathOf plat, binaryNameOf plat]` in that order. If the
bundled candidate is invalid and the bare name validates, `getServer`
returns the bare name; if neither validates, it fails with the
aggregated message listing the bundled and PATH diagnostics. -/
theorem getServer_fallback_order (plat : Platform) (spawn : String → SpawnBehavior)
    (conf : ConfigValue) (hconf : conf = .undef ∨ conf = .null)
    (bundledMessage : String)
    (hb : validateServer spawn (bundledPathOf plat) = .invalid bundledMessage) :
    (validateServer spawn (binaryNameOf plat) = .valid →
      getServer plat spawn conf =
        (.ok (binaryNameOf plat), [bundledPathOf plat, binaryNameOf plat])) ∧
    (∀ binaryMessage, validateServer spawn (binaryNameOf plat) = .invalid binaryMessage →
      getServer plat spawn conf =
        (.error s!"Could not find a valid typst-lsp binary.\nBundled: {bundledMessage}\nIn PATH: {binaryMessage}",
         [bundledPathOf plat, binaryNameOf plat])) := by
  rw [getServer_eq_fallback plat spawn conf hconf]
  rw [bundledPathOf, binaryNameOf] at hb
  constructor
  · intro h2
    rw [binaryNameOf] at h2
    simp [getServerFallback, bundledPathOf, binaryNameOf, hb, h2]
  · intro binaryMessage h2
    rw [binaryNameOf] at h2
    simp [getServerFallback, bundledPathOf, binaryNameOf, hb, h2]

theorem getServer_fallback_order_witness :
    ((ConfigValue.undef = ConfigValue.undef) ∨ (ConfigValue.undef = ConfigValue.null)) ∧
    validateServer spawnPathOnly (bundledPathOf ⟨false, "/ext"⟩) =
      .invalid "Failed to launch \x27/ext/typst-lsp\x27:\n\terror: spawn ENOENT" ∧
    validateServer spawnPathOnly (binaryNameOf ⟨false, "/ext"⟩) = .valid ∧
    getServer ⟨false, "/ext"⟩ spawnPathOnly .undef =
      (.ok "typst-lsp", ["/ext/typst-lsp", "typst-lsp"]) :=
  ⟨Or.inl rfl, by decide, by decide,
   (getServer_fallback_order ⟨false, "/ext"⟩ spawnPathOnly .undef (Or.inl rfl)
       "Failed to launch \x27/ext/typst-lsp\x27:\n\terror: spawn ENOENT" (by decide)).1
     (by decide)⟩

/-- C10: an empty-string `serverPath` override is treated as absent:
`getServer` on `.str ""` equals the fallback resolution and the
no-override (`undefined`) resolution, and the empty path is never
probed (it is not in the spawn trace, which holds only the non-empty
bundled and PATH candidate paths). In particular the empty override
never causes immediate failure. -/
theorem getServer_empty_override (plat : Platform) (spawn : String → SpawnBehavior) :
    getServer plat spawn (.str "") = getServerFallback plat spawn ∧
    getServer plat spawn (.str "") = getServer plat spawn .undef ∧
    "" ∉ (getServer plat spawn (.str "")).2 := by
  have h1 : getServer plat spawn (.str "") = getServerFallback plat spawn := by
    simp [getServer]
  refine ⟨h1, h1.trans rfl, ?_⟩
  rw [h1]
  rcases getServerFallback_trace plat spawn with h | h <;> rw [h]
  · intro hmem
    rw [List.mem_singleton] at hmem
    exact bundledPathOf_ne_empty plat hmem.symm
  · intro hmem
    rcases List.mem_cons.mp hmem with h2 | h2
    · exact bundledPathOf_ne_empty plat h2.symm
    · rw [List.mem_singleton] at h2
      exact binaryNameOf_ne_empty plat h2.symm

/-- C4: `validateServer` returns `valid` exactly when the synchronous
spawn returns an exit status of 0; every other outcome — a thrown
spawn error (`Error` or not), a nonzero exit status, or a missing
(`null`) exit status — yields `invalid` with a diagnostic message that
names the attempted command (it extends `Failed to launch '<path>'`).
The function is total, so no exception propagates: thrown spawn errors
are caught and turned into `invalid` results (second and third
conjuncts). -/
theorem validateServer_spec (spawn : String → SpawnBehavior) (p : String) :
    (validateServer spawn p = .valid ↔ ∃ r, spawn p = .returns r ∧ r.status = some 0) ∧
    (∀ e, spawn p = .throwsError e →
      validateServer spawn p = .invalid s!"Failed to launch \x27{p}\x27: {e}") ∧
    (∀ j, spawn p = .throwsOther j →
      validateServer spawn p = .invalid s!"Failed to launch \x27{p}\x27: {j}") ∧
    (∀ m, validateServer spawn p = .invalid m →
      ∃ rest, m = s!"Failed to launch \x27{p}\x27" ++ rest) := by
  refine ⟨?_, ?_, ?_, ?_⟩
  · cases h : spawn p with
    | returns r =>
      by_cases h0 : r.status = some 0 <;> simp [validateServer, h, h0]
    | throwsError e => simp [validateServer, h]
    | throwsOther j => simp [validateServer, h]
  · intro e h
    simp [validateServer, h]
  · intro j h
    simp [validateServer, h]
  · intro m h
    cases hs : spawn p with
    | returns r =>
      simp only [validateServer, hs] at h
      by_cases h0 : r.status = some 0
      · rw [if_pos h0] at h
        exact absurd h (by simp)
      · rw [if_neg h0] at h
        injection h with hm
        exact ⟨_, hm.symm⟩
    | throwsError e =>
      simp only [validateServer, hs] at h
      injection h with hm
      refine ⟨": " ++ e, ?_⟩
      rw [← hm]
      apply String.ext
      simp [toString, String.data_append]
    | throwsOther j =>
      simp only [validateServer, hs] at h
      injection h with hm
      refine ⟨": " ++ j, ?_⟩
      rw [← hm]
      apply String.ext
      simp [toString, String.data_append]

theorem validateServer_spec_witness :
    spawnThrows "/opt/typst-lsp" = .throwsError "EACCES" ∧
    validateServer spawnThrows "/opt/typst-lsp" =
      .invalid "Failed to launch \x27/opt/typst-lsp\x27: EACCES" :=
  ⟨rfl, (validateServer_spec spawnThrows "/opt/typst-lsp").2.1 "EACCES" rfl⟩

/-- C2: with an active document and a defined client, `commandShowPdf`
performs, in order: when the stat of the derived artifact succeeds,
no export request and exactly one open-viewer action beside the source
editor; when the stat fails, exactly one export request before the
open attempt, and the open-viewer action afterwards in any case — the
action list is the same whatever `requestOutcome` says, so the open
happens whether the export request resolves or rejects (only the
propagated error differs). -/
theorem commandShowPdf_spec (w : World) (uri : String)
    (hed : w.activeEditor = some uri) (hc : w.clientDefined = true) :
    (w.statSucceeds (pdfUriOf uri) = true →
      commandShowPdf w =
        ([Action.statFile (pdfUriOf uri), Action.openViewer (pdfUriOf uri) ViewColumn.beside],
         none)) ∧
    (w.statSucceeds (pdfUriOf uri) = false →
      commandShowPdf w =
        ([Action.statFile (pdfUriOf uri),
          Action.sendExecuteCommand "typst-lsp.doPdfExport" uri,
          Action.openViewer (pdfUriOf uri) ViewColumn.beside],
         w.requestOutcome "typst-lsp.doPdfExport" uri)) := by
  constructor
  · intro h
    simp [commandShowPdf, hed, h]
  · intro h
    simp [commandShowPdf, commandExportCurrentPdf, hed, hc, h]

theorem commandShowPdf_spec_witness :
    wShowMissing.activeEditor = some "file:///doc/main.typ" ∧
    wShowMissing.clientDefined = true ∧
    wShowMissing.statSucceeds (pdfUriOf "file:///doc/main.typ") = false ∧
    commandShowPdf wShowMissing =
      ([Action.statFile "file:///doc/main.pdf",
        Action.sendExecuteCommand "typst-lsp.doPdfExport" "file:///doc/main.typ",
        Action.openViewer "file:///doc/main.pdf" ViewColumn.beside],
       some "export failed") :=
  ⟨rfl, rfl, rfl,
   (commandShowPdf_spec wShowMissing "file:///doc/main.typ" rfl rfl).2 rfl⟩

/-- C5: each of the three commands, invoked with no active editor,
performs no action (no request, no stat, no viewer open) and
propagates no error. -/
theorem commands_no_active_editor (w : World) (h : w.activeEditor = none) :
    commandExportCurrentPdf w = ([], none) ∧
    commandShowPdf w = ([], none) ∧
    commandClearCache w = ([], none) := by
  refine ⟨?_, ?_, ?_⟩ <;>
    simp [commandExportCurrentPdf, commandShowPdf, commandClearCache, h]

theorem commands_no_active_editor_witness :
    wNoEditor.activeEditor = none ∧
    (commandExportCurrentPdf wNoEditor = ([], none) ∧
     commandShowPdf wNoEditor = ([], none) ∧
     commandClearCache wNoEditor = ([], none)) :=
  ⟨rfl, commands_no_active_editor wNoEditor rfl⟩

/-- C6: for a source document URI of the form `base ++ "." ++ ext`
(well-formed: it has a final extension, `ext` holding no further dot),
the artifact URI used by `commandShowPdf` is `base ++ ".pdf"` — the
final extension replaced by `.pdf`. It is computed by `pdfUriOf`, a
pure function of the URI string alone (the arbitrary `World`, which in
particular carries everything server-provided, plays no part in the
derived path), and the command both stats and opens exactly that URI. -/
theorem showPdf_artifact_path (base ext : String) (hext : '.' ∉ ext.data)
    (w : World) (huri : w.activeEditor = some (base ++ "." ++ ext)) :
    pdfUriOf (base ++ "." ++ ext) = base ++ ".pdf" ∧
    (commandShowPdf w).1.head? = some (Action.statFile (base ++ ".pdf")) ∧
    (commandShowPdf w).1.getLast? =
      some (Action.openViewer (base ++ ".pdf") ViewColumn.beside) := by
  have hpdf := pdfUriOf_replace_ext base ext hext
  refine ⟨hpdf, ?_, ?_⟩
  · simp only [commandShowPdf, huri]
    rw [hpdf]
    by_cases hstat : w.statSucceeds (base ++ ".pdf") = true
    · rw [if_pos hstat]
      rfl
    · rw [if_neg hstat]
      rfl
  · simp only [commandShowPdf, huri]
    rw [hpdf]
    by_cases hstat : w.statSucceeds (base ++ ".pdf") = true
    · rw [if_pos hstat]
      rfl
    · rw [if_neg hstat]
      show (Action.statFile (base ++ ".pdf") ::
          ((commandExportCurrentPdf w).1 ++
            [Action.openViewer (base ++ ".pdf") ViewColumn.beside])).getLast? =
        some (Action.openViewer (base ++ ".pdf") ViewColumn.beside)
      rw [← List.cons_append]
      exact List.getLast?_concat _

theorem showPdf_artifact_path_witness :
    ('.' ∉ ("typ" : String).data) ∧
    wShowTyp.activeEditor = some ("file:///doc/ch1" ++ "." ++ "typ") ∧
    (pdfUriOf ("file:///doc/ch1" ++ "." ++ "typ") = "file:///doc/ch1" ++ ".pdf" ∧
     (commandShowPdf wShowTyp).1.head? =
       some (Action.statFile ("file:///doc/ch1" ++ ".pdf")) ∧
     (commandShowPdf wShowTyp).1.getLast? =
       some (Action.openViewer ("file:///doc/ch1" ++ ".pdf") ViewColumn.beside)) :=
  ⟨by decide, rfl, showPdf_artifact_path "file:///doc/ch1" "typ" (by decide) wShowTyp rfl⟩

/-- C7: a configuration-change event arriving with no live client (the
module global `client` unset, i.e. the session Stopped) sends no
notification and raises no error: the handler's optional chain
short-circuits and the change is dropped rather than queued. -/
theorem onConfigurationChanged_stopped :
    onConfigurationChanged false = ([], none) := rfl

/-- C8: `deactivate` (`client?.stop()`) on a nonexistent client and on
an already-Stopped session completes without throwing and leaves the
state unchanged, so it may be invoked unconditionally at
deactivation. -/
theorem deactivate_stop_idempotent :
    deactivate none = (none, none) ∧
    deactivate (some SessionState.stopped) = (some SessionState.stopped, none) :=
  ⟨rfl, rfl⟩

/-- C9: the child environment built by `startClient` maps
`RUST_BACKTRACE` to `"1"` and agrees with the parent environment on
every other variable, for every parent environment. -/
theorem startClientEnv_spec (processEnv : String → Option String) :
    startClientEnv processEnv "RUST_BACKTRACE" = some "1" ∧
    ∀ k, k ≠ "RUST_BACKTRACE" → startClientEnv processEnv k = processEnv k := by
  constructor
  · rfl
  · intro k hk
    simp [startClientEnv, objectAssign, rustBacktraceOverride, hk]

theorem startClientEnv_spec_witness :
    startClientEnv parentEnvSample "RUST_BACKTRACE" = some "1" ∧
    ("PATH" : String) ≠ "RUST_BACKTRACE" ∧
    startClientEnv parentEnvSample "PATH" = parentEnvSample "PATH" :=
  ⟨(startClientEnv_spec parentEnvSample).1, by decide,
   (startClientEnv_spec parentEnvSample).2 "PATH" (by decide)⟩

end TypstLsp
